import Mathlib

/-!
Verification of the LCS gateway core (packet builder, TCP client framing,
agent manager, effect engine) against its natural-language specification.

Buffers are modelled as `List ℕ` of byte values.  JavaScript bitwise
operators work on 32-bit two's-complement integers; where that matters
(`calculateBCC`) we model the coercion explicitly over `ℤ`.
-/

/-- JavaScript `ToInt32`: reduce an integer to 32-bit two's complement. -/
def jsToInt32 (n : ℤ) : ℤ := (n + 2 ^ 31) % 2 ^ 32 - 2 ^ 31

/-- Writing a number into a `Buffer` cell keeps its low byte. -/
def byteOf (n : ℕ) : ℕ := n % 256

/-- `buffer.readUInt16LE(off)`: little-endian 16-bit read. -/
def readUInt16LE (buf : List ℕ) (off : ℕ) : ℕ :=
  buf.getD off 0 + 256 * buf.getD (off + 1) 0

/-- `Buffer.prototype.slice(s, e)`: negative indices count from the end,
both bounds are clamped to `[0, length]`, and `e < s` yields `[]`. -/
def jsSlice (buf : List ℕ) (s e : ℤ) : List ℕ :=
  let n : ℤ := buf.length
  let s1 : ℤ := if s < 0 then max (n + s) 0 else min s n
  let e1 : ℤ := if e < 0 then max (n + e) 0 else min e n
  (buf.take e1.toNat).drop s1.toNat

namespace LCSPacketBuilder

/-- The word-summing loop of `calculateBCC`: starting at index `i`, read
16-bit big-endian words `(data[i] << 8) | data[i+1]` (low byte zero when
`i+1` falls outside the range) and add them, stepping `i` by two while
`i < e`.  The loop is driven by fuel `e - i`, which bounds the number of
iterations, so the definition is structural and kernel-computable. -/
def bccGo (l : List ℕ) (e : ℕ) : ℕ → ℕ → ℕ
  | _, 0 => 0
  | i, fuel + 1 =>
    if i < e then
      (l.getD i 0 <<< 8 ||| (if i + 1 < e then l.getD (i + 1) 0 else 0)) +
        bccGo l e (i + 2) fuel
    else 0

/-- Sum of the 16-bit big-endian words of `l` over index range `[i, e)`. -/
def bccWordSum (l : List ℕ) (i e : ℕ) : ℕ := bccGo l e i (e - i)

/-- `LCSPacketBuilder.calculateBCC(data, start, end)`: sum big-endian
words over `[start, end)`, fold once with
`sum = (sum & 0xffff) + (sum >> 16)` (JS `>>` sign-extends through
`ToInt32`), then return `~sum & 0xffff`. -/
def calculateBCC (data : List ℕ) (start e : ℕ) : ℤ :=
  let sum : ℤ := (bccWordSum data start e : ℕ)
  let folded : ℤ := sum % 65536 + jsToInt32 sum / 65536
  (-(jsToInt32 folded) - 1) % 65536

/-- Host source address `[0x13, 0, 0, 0, 0]`. -/
def HOST_ADDRESS : List ℕ := [0x13, 0x00, 0x00, 0x00, 0x00]

/-- The first 15 bytes written by `buildPacket`: STX, 16-bit big-endian
total length (`18 + dataLen`), the 5-byte destination address
(`Buffer.from(destAddr).copy`, so bytes truncated and the 5-byte field
zero-padded), the 5-byte host source address, and the two op bytes. -/
def packetHeader (destAddr : List ℕ) (op1 op2 : ℕ) (dataLen : ℕ) : List ℕ :=
  [0x02, (18 + dataLen) / 256 % 256, (18 + dataLen) % 256] ++
    ((destAddr.map byteOf).take 5 ++ List.replicate (5 - destAddr.length) 0) ++
    HOST_ADDRESS ++ [byteOf op1, byteOf op2]

/-- The first `15 + data.length` bytes written by `buildPacket`: the
header followed by the data bytes. -/
def packetBody (destAddr : List ℕ) (op1 op2 : ℕ) (data : List ℕ) : List ℕ :=
  packetHeader destAddr op1 op2 data.length ++ data.map byteOf

/-- `LCSPacketBuilder.buildPacket(destAddr, op1, op2, data)`: the body of
§`packetBody`, then the BCC over `[3, totalLength - 3)` stored
little-endian, and ETX.  The BCC is computed on the zero-filled buffer
before its own bytes are written, hence the `++ [0, 0, 0]`. -/
def buildPacket (destAddr : List ℕ) (op1 op2 : ℕ) (data : List ℕ) : List ℕ :=
  let body := packetBody destAddr op1 op2 data
  let bcc := (calculateBCC (body ++ [0, 0, 0]) 3 (18 + data.length - 3)).toNat
  body ++ [bcc % 256, bcc / 256, 0x03]

/-- Device-type strings accepted by `getLampBrightness`. -/
inductive DeviceType
  | LCS
  | RCU4
  | RCU8
deriving DecidableEq

/-- The `deviceTypeMap` table. -/
def deviceTypeMap : DeviceType → ℕ
  | .LCS => 0x13
  | .RCU4 => 0x55
  | .RCU8 => 0x57

/-- `getLampBrightness(masterAddr, cuAddr, deviceType)`. -/
def getLampBrightness (masterAddr cuAddr : ℕ) (deviceType : DeviceType) : List ℕ :=
  buildPacket [deviceTypeMap deviceType, masterAddr, cuAddr, 0x00, 0x00] 0x96 0x00 []

/-- `getLampColorTemperature(masterAddr, cuAddr)`. -/
def getLampColorTemperature (masterAddr cuAddr : ℕ) : List ℕ :=
  buildPacket [0x13, masterAddr, cuAddr, 0x00, 0x00] 0x96 0x06 []

/-- `controlLampBlock(masterAddr, cuAddr, lampList, brightness)`. -/
def controlLampBlock (masterAddr cuAddr : ℕ) (lampList : List ℕ) (brightness : ℕ) :
    List ℕ :=
  buildPacket [0x13, masterAddr, cuAddr, 0x00, 0x00] 0x90 0x00
    ([cuAddr, lampList.length] ++ lampList ++ [brightness])

/-- `controlLampDimming(masterAddr, cuAddr, lampNo, brightness)`. -/
def controlLampDimming (masterAddr cuAddr lampNo brightness : ℕ) : List ℕ :=
  buildPacket [0x13, masterAddr, cuAddr, 0x00, 0x00] 0x92 0x00
    [cuAddr, lampNo, 0x00, brightness]

/-- `controlLampColorTemp(masterAddr, cuAddr, lampList, colorTemp)`. -/
def controlLampColorTemp (masterAddr cuAddr : ℕ) (lampList : List ℕ) (colorTemp : ℕ) :
    List ℕ :=
  buildPacket [0x13, masterAddr, cuAddr, 0x00, 0x00] 0x90 0x05
    ([cuAddr, lampList.length] ++ lampList ++ [colorTemp])

/-- `executeScene(masterAddr, cuAddr, sceneNo, fadeTime)`. -/
def executeScene (masterAddr cuAddr sceneNo fadeTime : ℕ) : List ℕ :=
  buildPacket [0x13, masterAddr, cuAddr, 0x00, 0x00] 0x91 0x00
    [cuAddr, sceneNo, fadeTime]

/-- `controlAllLamps(masterAddr, cuAddr, brightness)`. -/
def controlAllLamps (masterAddr cuAddr brightness : ℕ) : List ℕ :=
  buildPacket [0x13, masterAddr, cuAddr, 0x00, 0x00] 0x90 0x02 [cuAddr, brightness]

/-- `getDeviceName()`: broadcast destination. -/
def getDeviceName : List ℕ :=
  buildPacket [0x13, 0x00, 0x00, 0x00, 0x00] 0xa2 0x05 []

end LCSPacketBuilder

namespace LCSTcpClient

/-- The fields extracted by `parseResponsePacket` for a complete packet. -/
structure PacketInfo where
  totalLength : ℕ
  destAddr : List ℕ
  srcAddr : List ℕ
  op1 : ℕ
  op2 : ℕ
  data : List ℕ
  bcc : ℕ
deriving DecidableEq

/-- `LCSTcpClient.parseResponsePacket(buffer)`: needs 18 bytes, STX at 0,
reads the packet length **little-endian** at offset 1, needs that many
bytes, checks ETX at `length - 1`, then extracts the fields.  `none`
models `{ isComplete: false }`.  `dataLength = packetLength - 18` is
computed in `ℤ` because JS lets it go negative (the slice and BCC offset
then follow `Buffer.slice` semantics). -/
def parseResponsePacket (buffer : List ℕ) : Option PacketInfo :=
  if buffer.length < 18 then none
  else if buffer.getD 0 0 ≠ 0x02 then none
  else
    let packetLength := readUInt16LE buffer 1
    if buffer.length < packetLength then none
    else if buffer.getD (packetLength - 1) 0 ≠ 0x03 then none
    else
      let dataLength : ℤ := (packetLength : ℤ) - 18
      some
        { totalLength := packetLength
          destAddr := jsSlice buffer 3 8
          srcAddr := jsSlice buffer 8 13
          op1 := buffer.getD 13 0
          op2 := buffer.getD 14 0
          data := jsSlice buffer 15 (15 + dataLength)
          bcc := readUInt16LE buffer (15 + dataLength).toNat }

/-- The `while` loop of `LCSTcpClient.handleResponse`: while at least 18
bytes are buffered, parse; on a complete packet emit it and drop
`totalLength` bytes, otherwise stop.  Returns the emitted packets and the
remaining buffer.  Fuel bounds the iteration count; every complete packet
has `totalLength > 0` (its ETX check cannot pass at the STX byte), so
`buf.length` units of fuel are never exhausted. -/
def handleLoop : ℕ → List ℕ → List PacketInfo × List ℕ
  | 0, buf => ([], buf)
  | fuel + 1, buf =>
    if 18 ≤ buf.length then
      match parseResponsePacket buf with
      | some p =>
        let r := handleLoop fuel (buf.drop p.totalLength)
        (p :: r.1, r.2)
      | none => ([], buf)
    else ([], buf)

/-- `LCSTcpClient.handleResponse` acting on the accumulated buffer:
returns the packets emitted as `response` events and the buffer kept for
the next chunk. -/
def handleResponse (buf : List ℕ) : List PacketInfo × List ℕ :=
  handleLoop buf.length buf

/-- The request-correlation state of one `LCSTcpClient`: connection flag,
the last issued `requestId`, the ids with a live entry in
`responseCallbacks` (in enqueue order), and the `response` listeners
registered by `sendPacket` (in registration order, tagged by the id they
serve). -/
structure ClientState where
  isConnected : Bool
  requestId : ℕ
  responseCallbacks : List ℕ
  listeners : List ℕ
deriving DecidableEq

/-- Immediate outcome of a `sendPacket` call. -/
inductive SendResult
  | rejectedNotConnected
  | registered (id : ℕ)
deriving DecidableEq

/-- `LCSTcpClient.sendPacket`: when disconnected, reject immediately;
otherwise take a fresh `requestId`, store its callback, register its
one-shot `response` listener, and write the packet (the wire itself is
not modelled). -/
def sendPacket (s : ClientState) : ClientState × SendResult :=
  if s.isConnected = false then (s, .rejectedNotConnected)
  else
    let id := s.requestId + 1
    ({ s with
        requestId := id
        responseCallbacks := s.responseCallbacks ++ [id]
        listeners := s.listeners ++ [id] }, .registered id)

/-- One `emit('response', resp)`: Node's emitter calls the listeners of a
snapshot of the listener array in registration order; each handler checks
whether its id still has a callback, and if so deletes the callback,
detaches itself, and resolves its promise with `resp`.  Returns the
remaining callback list and the resolutions `(id, resp)` in firing
order. -/
def deliverR {α : Type} (resp : α) : List ℕ → List ℕ → List ℕ × List (ℕ × α)
  | [], callbacks => (callbacks, [])
  | id :: rest, callbacks =>
    if id ∈ callbacks then
      let r := deliverR resp rest (callbacks.erase id)
      (r.1, (id, resp) :: r.2)
    else deliverR resp rest callbacks

/-- Effect of one decoded response on the client state: run the emitter
over the current listeners, drop the callbacks and listeners of every
request that resolved. -/
def deliverResponse {α : Type} (resp : α) (s : ClientState) :
    ClientState × List (ℕ × α) :=
  let r := deliverR resp s.listeners s.responseCallbacks
  ({ s with
      responseCallbacks := r.1
      listeners := s.listeners.filter fun id => !(r.2.map Prod.fst).contains id },
    r.2)

/-- Failure outcomes a pending request can observe. -/
inductive Outcome
  | rejectedTimeout (id : ℕ)
  | rejectedConnectionLost (id : ℕ)
deriving DecidableEq

/-- The socket `close` handler: clears `isConnected` and emits
`disconnected`.  It touches neither `responseCallbacks` nor the
listeners, and it rejects nothing. -/
def onClose (s : ClientState) : ClientState × List Outcome :=
  ({ s with isConnected := false }, [])

/-- The 5-second timer of one pending request firing: if its callback is
still registered, delete it and reject with the timeout error (the
listener itself is not detached by this path). -/
def onTimeout (id : ℕ) (s : ClientState) : ClientState × List Outcome :=
  if id ∈ s.responseCallbacks then
    ({ s with responseCallbacks := s.responseCallbacks.erase id },
      [.rejectedTimeout id])
  else (s, [])

end LCSTcpClient

namespace LCSController

/-- JavaScript `Math.round`: floor of `x + 1/2` (halves round toward
positive infinity).  The loop arithmetic of `fadeControl` is modelled
over `ℚ`. -/
def jsRound (x : ℚ) : ℤ := ⌊x + 1 / 2⌋

/-- The brightness values sent by `LCSController.fadeControl`:
`steps = 20`, `stepSize = (end - start) / steps`, and for `i = 0 .. 20`
one `controlLamp` call with `Math.round(start + stepSize * i)` (the
inter-step sleep is skipped after the last step and carries no
brightness). -/
def fadeControl (startBrightness endBrightness : ℚ) : List ℤ :=
  let steps : ℕ := 20
  let stepSize : ℚ := (endBrightness - startBrightness) / 20
  (List.range (steps + 1)).map fun i : ℕ => jsRound (startBrightness + stepSize * (i : ℚ))

/-- One observable step of `waveEffect`: a `controlLamp` send or a
`setTimeout` sleep. -/
inductive WaveAction
  | send (lampNo brightness : ℕ)
  | sleep (ms : ℕ)
deriving DecidableEq

/-- The action trace of `LCSController.waveEffect`: for each lamp of the
list, in order, one awaited `controlLamp(master, cu, lampNo, brightness)`
followed by an `interval`-millisecond sleep — the loop body sleeps after
every send, the last one included. -/
def waveEffect (lampList : List ℕ) (brightness interval : ℕ) : List WaveAction :=
  lampList.flatMap fun lampNo => [.send lampNo brightness, .sleep interval]

/-- The lamp numbers of the `controlLamp` sends of a trace, in order. -/
def sentLamps (t : List WaveAction) : List ℕ :=
  t.filterMap fun a =>
    match a with
    | .send lampNo _ => some lampNo
    | .sleep _ => none

/-- How many sleeps a trace performs. -/
def sleepCount (t : List WaveAction) : ℕ :=
  (t.filter fun a =>
    match a with
    | .sleep _ => true
    | .send _ _ => false).length

end LCSController

namespace LCSAgentManager

/-- JS truthiness test `!this.defaultAgentId`: `null` and the empty
string are falsy. -/
def jsFalsy : Option String → Bool
  | none => true
  | some v => v = ""

/-- State of `LCSAgentManager`: the registered agent ids in `Map`
insertion order, and `defaultAgentId`. -/
structure ManagerState where
  agents : List String
  defaultAgentId : Option String
deriving DecidableEq

/-- `addAgent(agentId, ...)`: throws on a duplicate id (modelled as
`false` with the state unchanged); otherwise registers the controller
and, when `defaultAgentId` is unset, makes this first agent the
default. -/
def addAgent (s : ManagerState) (agentId : String) : ManagerState × Bool :=
  if agentId ∈ s.agents then (s, false)
  else
    let s1 : ManagerState := { s with agents := s.agents ++ [agentId] }
    if jsFalsy s1.defaultAgentId then
      ({ s1 with defaultAgentId := some agentId }, true)
    else (s1, true)

/-- `removeAgent(agentId)`: `false` when unknown; otherwise disconnect
and delete, and if the removed agent was the default, promote
`Array.from(this.agents.keys())[0]` — the first remaining id in
insertion order — or `null` when none survive. -/
def removeAgent (s : ManagerState) (agentId : String) : ManagerState × Bool :=
  if agentId ∈ s.agents then
    let remaining := s.agents.erase agentId
    ({ agents := remaining
       defaultAgentId :=
         if s.defaultAgentId = some agentId then remaining.head?
         else s.defaultAgentId }, true)
  else (s, false)

/-- The id strings of the concrete promotion scenario. -/
def agentA : String := "a"

/-- Second id of the concrete promotion scenario. -/
def agentB : String := "b"

end LCSAgentManager

namespace LCSPacketBuilder

theorem packetHeader_length (destAddr : List ℕ) (op1 op2 : ℕ) (dataLen : ℕ) :
    (packetHeader destAddr op1 op2 dataLen).length = 15 := by
  simp [packetHeader, HOST_ADDRESS]
  omega

theorem packetBody_length (destAddr : List ℕ) (op1 op2 : ℕ) (data : List ℕ) :
    (packetBody destAddr op1 op2 data).length = 15 + data.length := by
  simp [packetBody, packetHeader_length]

theorem buildPacket_eq (destAddr : List ℕ) (op1 op2 : ℕ) (data : List ℕ) :
    buildPacket destAddr op1 op2 data =
      packetBody destAddr op1 op2 data ++
        [(calculateBCC (packetBody destAddr op1 op2 data ++ [0, 0, 0]) 3
            (18 + data.length - 3)).toNat % 256,
         (calculateBCC (packetBody destAddr op1 op2 data ++ [0, 0, 0]) 3
            (18 + data.length - 3)).toNat / 256, 0x03] := rfl

theorem buildPacket_length (destAddr : List ℕ) (op1 op2 : ℕ) (data : List ℕ) :
    (buildPacket destAddr op1 op2 data).length = 18 + data.length := by
  rw [buildPacket_eq, List.length_append, packetBody_length]
  simp only [List.length_cons, List.length_nil]
  omega

theorem bccGo_congr {l l2 : List ℕ} {e : ℕ}
    (h : ∀ j, j < e → l.getD j 0 = l2.getD j 0) :
    ∀ fuel i, bccGo l e i fuel = bccGo l2 e i fuel := by
  intro fuel
  induction fuel with
  | zero => intro i; rfl
  | succ k ih =>
    intro i
    simp only [bccGo]
    by_cases hi : i < e
    · simp only [if_pos hi]
      by_cases hi1 : i + 1 < e
      · simp only [if_pos hi1]
        rw [h i hi, h (i + 1) hi1, ih]
      · simp only [if_neg hi1]
        rw [h i hi, ih]
    · simp only [if_neg hi]

theorem calculateBCC_congr {l l2 : List ℕ} {s e : ℕ}
    (h : ∀ j, j < e → l.getD j 0 = l2.getD j 0) :
    calculateBCC l s e = calculateBCC l2 s e := by
  unfold calculateBCC bccWordSum
  rw [bccGo_congr h]

theorem buildPacket_getD_lt (destAddr : List ℕ) (op1 op2 : ℕ) (data : List ℕ)
    (j : ℕ) (hj : j < 15 + data.length) :
    (buildPacket destAddr op1 op2 data).getD j 0 =
      (packetBody destAddr op1 op2 data).getD j 0 := by
  have hb : (packetBody destAddr op1 op2 data).length = 15 + data.length :=
    packetBody_length destAddr op1 op2 data
  have hj' : j < (packetBody destAddr op1 op2 data).length := by omega
  rw [buildPacket_eq]
  exact List.getD_append _ _ _ _ hj'

set_option maxHeartbeats 1000000 in
theorem buildPacket_bcc_bytes (destAddr : List ℕ) (op1 op2 : ℕ) (data : List ℕ) :
    (buildPacket destAddr op1 op2 data).getD (15 + data.length) 0 =
      (calculateBCC (buildPacket destAddr op1 op2 data) 3 (15 + data.length)).toNat % 256 ∧
    (buildPacket destAddr op1 op2 data).getD (16 + data.length) 0 =
      (calculateBCC (buildPacket destAddr op1 op2 data) 3 (15 + data.length)).toNat / 256 := by
  have hb : (packetBody destAddr op1 op2 data).length = 15 + data.length :=
    packetBody_length destAddr op1 op2 data
  have hb15 : (packetBody destAddr op1 op2 data).length ≤ 15 + data.length := by omega
  have hb16 : (packetBody destAddr op1 op2 data).length ≤ 16 + data.length := by omega
  have hcongr : calculateBCC (buildPacket destAddr op1 op2 data) 3 (15 + data.length) =
      calculateBCC (packetBody destAddr op1 op2 data ++ [0, 0, 0]) 3 (15 + data.length) := by
    apply calculateBCC_congr
    intro j hj
    have hj' : j < (packetBody destAddr op1 op2 data).length := by omega
    rw [buildPacket_eq]
    rw [List.getD_append _ _ _ _ hj', List.getD_append _ _ _ _ hj']
  have h3 : 18 + data.length - 3 = 15 + data.length := by omega
  constructor
  · rw [hcongr, buildPacket_eq, List.getD_append_right _ _ _ _ hb15, hb,
      Nat.sub_self, h3]
    exact List.getD_cons_zero
  · rw [hcongr, buildPacket_eq, List.getD_append_right _ _ _ _ hb16, hb, h3]
    have h1 : 16 + data.length - (15 + data.length) = 1 := by omega
    rw [h1]
    exact (List.getD_cons_succ).trans List.getD_cons_zero

theorem buildPacket_data_byte (destAddr : List ℕ) (op1 op2 : ℕ) (data : List ℕ)
    (i : ℕ) (hi : i < data.length) :
    (buildPacket destAddr op1 op2 data).getD (15 + i) 0 = byteOf (data.getD i 0) := by
  rw [buildPacket_getD_lt destAddr op1 op2 data (15 + i) (by omega)]
  have hhd : (packetHeader destAddr op1 op2 data.length).length = 15 :=
    packetHeader_length destAddr op1 op2 data.length
  have hple : (packetHeader destAddr op1 op2 data.length).length ≤ 15 + i := by omega
  rw [show packetBody destAddr op1 op2 data =
      packetHeader destAddr op1 op2 data.length ++ data.map byteOf from rfl]
  rw [List.getD_append_right _ _ _ _ hple, hhd]
  have h15 : 15 + i - 15 = i := by omega
  rw [h15]
  exact List.getD_map data 0 byteOf

theorem buildPacket_getD0 (destAddr : List ℕ) (op1 op2 : ℕ) (data : List ℕ) :
    (buildPacket destAddr op1 op2 data).getD 0 0 = 0x02 := by
  rw [buildPacket_getD_lt destAddr op1 op2 data 0 (by omega)]
  simp [packetBody, packetHeader]

theorem buildPacket_getD1 (destAddr : List ℕ) (op1 op2 : ℕ) (data : List ℕ) :
    (buildPacket destAddr op1 op2 data).getD 1 0 = (18 + data.length) / 256 % 256 := by
  rw [buildPacket_getD_lt destAddr op1 op2 data 1 (by omega)]
  simp [packetBody, packetHeader]

theorem buildPacket_getD2 (destAddr : List ℕ) (op1 op2 : ℕ) (data : List ℕ) :
    (buildPacket destAddr op1 op2 data).getD 2 0 = (18 + data.length) % 256 := by
  rw [buildPacket_getD_lt destAddr op1 op2 data 2 (by omega)]
  simp [packetBody, packetHeader]

end LCSPacketBuilder

namespace LCSTcpClient

theorem parse_of_buildPacket (destAddr : List ℕ) (op1 op2 : ℕ) (data : List ℕ)
    (h : data.length ≤ 237) :
    parseResponsePacket (LCSPacketBuilder.buildPacket destAddr op1 op2 data) = none := by
  have hL := LCSPacketBuilder.buildPacket_length destAddr op1 op2 data
  have h0 := LCSPacketBuilder.buildPacket_getD0 destAddr op1 op2 data
  have h1 : (LCSPacketBuilder.buildPacket destAddr op1 op2 data).getD 1 0 = 0 := by
    rw [LCSPacketBuilder.buildPacket_getD1, Nat.div_eq_of_lt (by omega)]
  have h2 : (LCSPacketBuilder.buildPacket destAddr op1 op2 data).getD 2 0 =
      18 + data.length := by
    rw [LCSPacketBuilder.buildPacket_getD2]
    exact Nat.mod_eq_of_lt (by omega)
  simp only [parseResponsePacket, readUInt16LE]
  rw [h0, h1, h2, hL]
  rw [if_neg (by omega), if_neg (by simp), if_pos (by omega)]

theorem handleResponse_stuck (buf : List ℕ) (h18 : 18 ≤ buf.length)
    (hstx : buf.getD 0 0 ≠ 0x02) :
    handleResponse buf = ([], buf) := by
  have hparse : parseResponsePacket buf = none := by
    simp only [parseResponsePacket]
    rw [if_neg (by omega), if_pos hstx]
  unfold handleResponse
  obtain ⟨k, hk⟩ : ∃ k, buf.length = k + 1 := ⟨buf.length - 1, by omega⟩
  rw [hk]
  simp only [handleLoop]
  rw [if_pos h18, hparse]

theorem deliverR_self {α : Type} (resp : α) :
    ∀ l : List ℕ, deliverR resp l l = ([], l.map fun id => (id, resp)) := by
  intro l
  induction l with
  | nil => rfl
  | cons a rest ih =>
    simp only [deliverR]
    rw [if_pos (List.mem_cons_self a rest), List.erase_cons_head, ih]
    rfl

end LCSTcpClient


theorem int_emod_65536_bounds (a : ℤ) : 0 ≤ a % 65536 ∧ a % 65536 ≤ 65535 := by
  constructor
  · exact Int.emod_nonneg a (by norm_num)
  · have := Int.emod_lt_of_pos a (show (0 : ℤ) < 65536 by norm_num)
    omega

theorem calculateBCC_eq (data : List ℕ) (start e : ℕ) :
    LCSPacketBuilder.calculateBCC data start e =
      (-(jsToInt32 ((LCSPacketBuilder.bccWordSum data start e : ℤ) % 65536 +
          jsToInt32 (LCSPacketBuilder.bccWordSum data start e) / 65536)) - 1) % 65536 := rfl

/-- C1 (code_bug): the round-trip law fails in the code.  `buildPacket`
writes `Length` big-endian, but `parseResponsePacket` reads it
little-endian, so for every frame a command builder can produce (any
destination, ops and data of at most 237 bytes, so that the total length
fits one byte) the little-endian read yields `256 * (18 + N)`, the
`buffer.length < packetLength` guard fires, and the parser reports the
frame incomplete instead of returning its fields. -/
theorem claim_C1_roundtrip_fails (destAddr : List ℕ) (op1 op2 : ℕ) (data : List ℕ)
    (h : data.length ≤ 237) :
    LCSTcpClient.parseResponsePacket
      (LCSPacketBuilder.buildPacket destAddr op1 op2 data) = none :=
  LCSTcpClient.parse_of_buildPacket destAddr op1 op2 data h

/-- Witness for C1: the 18-byte get-lamp-brightness frame for
master 1 / CU 1 is not decodable by the code's own parser. -/
theorem claim_C1_witness :
    LCSTcpClient.parseResponsePacket
      (LCSPacketBuilder.getLampBrightness 1 1 LCSPacketBuilder.DeviceType.LCS) = none :=
  claim_C1_roundtrip_fails [0x13, 1, 1, 0x00, 0x00] 0x96 0x00 [] (by decide)

/-- C2 counterexample: the claimed BCC value is wrong.  The frame built
by `controlLampDimming(1, 1, 5, 80)` does not carry 0x5C96 in its BCC
field (it carries 0x5896: the word sum over `[3, 19)` is 0xA769, not the
spec's 0xA369). -/
theorem claim_C2_counterexample :
    readUInt16LE (LCSPacketBuilder.controlLampDimming 1 1 5 80) 19 ≠ 0x5C96 := by decide

/-- C2 (corrected): `buildPacket` computes the BCC over exactly
`[3, 15 + N)` — destination address up to and including all data — and
stores it little-endian at offsets `15 + N, 16 + N`; the dim frame for
`(1, 1, 5, 80)` has total length 22 and BCC field 0x5896 (bytes
`96 58` at offsets 19..20). -/
theorem claim_C2_bcc_range_and_value :
    (∀ (destAddr : List ℕ) (op1 op2 : ℕ) (data : List ℕ),
      (LCSPacketBuilder.buildPacket destAddr op1 op2 data).getD (15 + data.length) 0 =
        (LCSPacketBuilder.calculateBCC (LCSPacketBuilder.buildPacket destAddr op1 op2 data)
            3 (15 + data.length)).toNat % 256 ∧
      (LCSPacketBuilder.buildPacket destAddr op1 op2 data).getD (16 + data.length) 0 =
        (LCSPacketBuilder.calculateBCC (LCSPacketBuilder.buildPacket destAddr op1 op2 data)
            3 (15 + data.length)).toNat / 256) ∧
    (LCSPacketBuilder.controlLampDimming 1 1 5 80).length = 22 ∧
    readUInt16LE (LCSPacketBuilder.controlLampDimming 1 1 5 80) 19 = 0x5896 :=
  ⟨fun destAddr op1 op2 data => LCSPacketBuilder.buildPacket_bcc_bytes destAddr op1 op2 data,
   by decide, by decide⟩

/-- C10 (confirmed): for every buffer and index pair `start ≤ e` within
it, `calculateBCC` returns an integer in `[0, 0xFFFF]` (the final
`~sum & 0xffff` masks to 16 bits even when the folded sum overflows),
and it is deterministic in its inputs. -/
theorem claim_C10_bcc_bounded (data : List ℕ) (start e : ℕ)
    (h1 : start ≤ e) (h2 : e ≤ data.length) :
    0 ≤ LCSPacketBuilder.calculateBCC data start e ∧
    LCSPacketBuilder.calculateBCC data start e ≤ 0xFFFF ∧
    ∀ (d2 : List ℕ) (s2 e2 : ℕ), d2 = data → s2 = start → e2 = e →
      LCSPacketBuilder.calculateBCC d2 s2 e2 = LCSPacketBuilder.calculateBCC data start e := by
  refine ⟨?_, ?_, ?_⟩
  · rw [calculateBCC_eq]
    exact (int_emod_65536_bounds _).1
  · rw [calculateBCC_eq]
    exact (int_emod_65536_bounds _).2
  · intro d2 s2 e2 hd hs he
    rw [hd, hs, he]

/-- Witness for C10 at a concrete 3-byte buffer. -/
theorem claim_C10_witness :
    0 ≤ LCSPacketBuilder.calculateBCC [0x13, 0x01, 0xFF] 0 3 ∧
    LCSPacketBuilder.calculateBCC [0x13, 0x01, 0xFF] 0 3 ≤ 0xFFFF :=
  ⟨(claim_C10_bcc_bounded [0x13, 0x01, 0xFF] 0 3 (by decide) (by decide)).1,
   (claim_C10_bcc_bounded [0x13, 0x01, 0xFF] 0 3 (by decide) (by decide)).2.1⟩

/-- C3 (code_bug): the decoder does not resync.  On a buffer of length at
least 18 whose first byte is not STX, `handleResponse` drops nothing,
emits nothing and leaves the buffer unchanged — and it stays stuck no
matter how many further bytes arrive, since the offending head byte is
never removed. -/
theorem claim_C3_decoder_stalls (buf : List ℕ) (h18 : 18 ≤ buf.length)
    (hstx : buf.getD 0 0 ≠ 0x02) :
    LCSTcpClient.handleResponse buf = ([], buf) ∧
    ∀ more : List ℕ, LCSTcpClient.handleResponse (buf ++ more) = ([], buf ++ more) := by
  constructor
  · exact LCSTcpClient.handleResponse_stuck buf h18 hstx
  · intro more
    apply LCSTcpClient.handleResponse_stuck
    · rw [List.length_append]
      omega
    · rw [List.getD_append _ _ _ _ (by omega)]
      exact hstx

/-- Witness for C3: one garbage byte in front of a valid 18-byte frame
freezes the stream decoder. -/
theorem claim_C3_witness :
    LCSTcpClient.handleResponse
        (0xFF :: LCSPacketBuilder.getLampBrightness 1 1 LCSPacketBuilder.DeviceType.LCS) =
      ([], 0xFF :: LCSPacketBuilder.getLampBrightness 1 1 LCSPacketBuilder.DeviceType.LCS) :=
  (claim_C3_decoder_stalls _ (by decide) (by decide)).1

/-- C4 counterexample: `controlLampDimming(1, 1, 5, 150)` — brightness
out of `[0, 100]` — does not fail with `InvalidArgument`: it returns a
full 22-byte encoded frame carrying the raw value 150 as its brightness
byte. -/
theorem claim_C4_counterexample :
    (LCSPacketBuilder.controlLampDimming 1 1 5 150).length = 22 ∧
    (LCSPacketBuilder.controlLampDimming 1 1 5 150).getD 18 0 = 150 := by decide

/-- C4 (corrected): the builders perform no argument validation at all.
Every `controlLampDimming` call, whatever the values of its arguments,
returns an encoded 22-byte frame whose brightness byte is the argument
truncated mod 256, and every `controlLampBlock` call returns a frame of
`21 + lampList.length` bytes. -/
theorem claim_C4_no_validation :
    (∀ masterAddr cuAddr lampNo brightness : ℕ,
      (LCSPacketBuilder.controlLampDimming masterAddr cuAddr lampNo brightness).length = 22 ∧
      (LCSPacketBuilder.controlLampDimming masterAddr cuAddr lampNo brightness).getD 18 0 =
        brightness % 256) ∧
    (∀ (masterAddr cuAddr : ℕ) (lampList : List ℕ) (brightness : ℕ),
      (LCSPacketBuilder.controlLampBlock masterAddr cuAddr lampList brightness).length =
        21 + lampList.length) := by
  constructor
  · intro masterAddr cuAddr lampNo brightness
    constructor
    · exact LCSPacketBuilder.buildPacket_length _ _ _ _
    · exact LCSPacketBuilder.buildPacket_data_byte [0x13, masterAddr, cuAddr, 0x00, 0x00]
        0x92 0x00 [cuAddr, lampNo, 0x00, brightness] 3 (by simp)
  · intro masterAddr cuAddr lampList brightness
    have h := LCSPacketBuilder.buildPacket_length [0x13, masterAddr, cuAddr, 0x00, 0x00]
      0x90 0x00 ([cuAddr, lampList.length] ++ lampList ++ [brightness])
    rw [show LCSPacketBuilder.controlLampBlock masterAddr cuAddr lampList brightness =
        LCSPacketBuilder.buildPacket [0x13, masterAddr, cuAddr, 0x00, 0x00] 0x90 0x00
          ([cuAddr, lampList.length] ++ lampList ++ [brightness]) from rfl, h]
    simp [List.length_append]
    omega

/-- C5 counterexample: with three requests pending, the peer closing the
socket fails none of them with `ConnectionLost` — the close handler
produces no rejection at all and leaves all three callbacks registered. -/
theorem claim_C5_counterexample :
    (LCSTcpClient.onClose
        (LCSTcpClient.sendPacket (LCSTcpClient.sendPacket (LCSTcpClient.sendPacket
          ⟨true, 0, [], []⟩).1).1).1).2 = [] ∧
    (LCSTcpClient.onClose
        (LCSTcpClient.sendPacket (LCSTcpClient.sendPacket (LCSTcpClient.sendPacket
          ⟨true, 0, [], []⟩).1).1).1).1.responseCallbacks = [1, 2, 3] := by decide

/-- C5 (corrected): connection loss does not fail pending requests.  The
`close` handler only clears `isConnected` (emitting `disconnected`) and
leaves every pending callback registered in enqueue order; each pending
request fails only when its own 5-second deadline fires, and then with
the timeout error, never with `ConnectionLost`. -/
theorem claim_C5_close_keeps_pending :
    (∀ s : LCSTcpClient.ClientState,
      (LCSTcpClient.onClose s).2 = [] ∧
      (LCSTcpClient.onClose s).1.responseCallbacks = s.responseCallbacks ∧
      (LCSTcpClient.onClose s).1.isConnected = false) ∧
    (∀ (s : LCSTcpClient.ClientState) (id : ℕ), id ∈ s.responseCallbacks →
      LCSTcpClient.onTimeout id s =
        ({ s with responseCallbacks := s.responseCallbacks.erase id },
          [LCSTcpClient.Outcome.rejectedTimeout id])) := by
  constructor
  · intro s
    exact ⟨rfl, rfl, rfl⟩
  · intro s id h
    unfold LCSTcpClient.onTimeout
    rw [if_pos h]

/-- Witness for C5: the second of three pending requests timing out is
rejected with the timeout error and removed from the queue. -/
theorem claim_C5_witness :
    LCSTcpClient.onTimeout 2 ⟨false, 3, [1, 2, 3], [1, 2, 3]⟩ =
      (⟨false, 3, [1, 3], [1, 2, 3]⟩, [LCSTcpClient.Outcome.rejectedTimeout 2]) :=
  (claim_C5_close_keeps_pending.2 ⟨false, 3, [1, 2, 3], [1, 2, 3]⟩ 2 (by decide)).trans
    (by decide)

/-- C6 counterexample: positional correlation fails.  With `send1` and
`send2` both issued before any response (two requests simultaneously
outstanding, refuting single-flight), the first response R1 = 100
resolves *both* futures with R1 — in particular `send2` gets R1 — and the
second response R2 = 200 resolves nothing. -/
theorem claim_C6_counterexample :
    (LCSTcpClient.sendPacket (LCSTcpClient.sendPacket
        ⟨true, 0, [], []⟩).1).1.responseCallbacks = [1, 2] ∧
    (LCSTcpClient.deliverResponse (100 : ℕ)
        (LCSTcpClient.sendPacket (LCSTcpClient.sendPacket ⟨true, 0, [], []⟩).1).1).2 =
      [(1, 100), (2, 100)] ∧
    (LCSTcpClient.deliverResponse (200 : ℕ)
        (LCSTcpClient.deliverResponse (100 : ℕ)
          (LCSTcpClient.sendPacket (LCSTcpClient.sendPacket
            ⟨true, 0, [], []⟩).1).1).1).2 = [] := by decide

/-- C6 (corrected): the client does not serialize requests, and a single
arriving response resolves *every* pending request with that same
response, in registration order, emptying the callback queue; the i-th
request therefore gets the i-th response only when at most one request is
outstanding at a time. -/
theorem claim_C6_first_response_resolves_all (resp : ℕ) (s : LCSTcpClient.ClientState)
    (h : s.responseCallbacks = s.listeners) :
    (LCSTcpClient.deliverResponse resp s).2 = s.listeners.map (fun id => (id, resp)) ∧
    (LCSTcpClient.deliverResponse resp s).1.responseCallbacks = [] := by
  simp only [LCSTcpClient.deliverResponse]
  rw [h, LCSTcpClient.deliverR_self]
  exact ⟨rfl, rfl⟩

/-- Witness for C6: both of two pending requests resolve with the single
response 100. -/
theorem claim_C6_witness :
    (LCSTcpClient.deliverResponse (100 : ℕ) ⟨true, 2, [1, 2], [1, 2]⟩).2 =
      [(1, 100), (2, 100)] ∧
    (LCSTcpClient.deliverResponse (100 : ℕ) ⟨true, 2, [1, 2], [1, 2]⟩).1.responseCallbacks =
      [] :=
  ⟨(claim_C6_first_response_resolves_all 100 ⟨true, 2, [1, 2], [1, 2]⟩ rfl).1.trans (by decide),
   (claim_C6_first_response_resolves_all 100 ⟨true, 2, [1, 2], [1, 2]⟩ rfl).2⟩

/-- C7 (confirmed): removing the current default agent promotes the
first remaining agent in insertion order (or `null` when none remain,
since `head?` of the empty remainder is `none`); concretely, after
`addAgent "a"`, `addAgent "b"`, `removeAgent "a"` the default is `"b"`,
and after a further `removeAgent "b"` it is `null`. -/
theorem claim_C7_default_promotion :
    (∀ (s : LCSAgentManager.ManagerState) (agentId : String),
      s.defaultAgentId = some agentId → agentId ∈ s.agents →
      (LCSAgentManager.removeAgent s agentId).1.defaultAgentId =
        (s.agents.erase agentId).head?) ∧
    (LCSAgentManager.removeAgent
        (LCSAgentManager.addAgent (LCSAgentManager.addAgent ⟨[], none⟩
          LCSAgentManager.agentA).1 LCSAgentManager.agentB).1
        LCSAgentManager.agentA).1.defaultAgentId = some LCSAgentManager.agentB ∧
    (LCSAgentManager.removeAgent (LCSAgentManager.removeAgent
        (LCSAgentManager.addAgent (LCSAgentManager.addAgent ⟨[], none⟩
          LCSAgentManager.agentA).1 LCSAgentManager.agentB).1
        LCSAgentManager.agentA).1 LCSAgentManager.agentB).1.defaultAgentId = none := by
  refine ⟨?_, ?_, ?_⟩
  · intro s agentId hdef hmem
    unfold LCSAgentManager.removeAgent
    rw [if_pos hmem]
    simp [hdef]
  · decide
  · decide

/-- Witness for C7: removing the default agent of the two-agent registry
promotes the survivor. -/
theorem claim_C7_witness :
    (LCSAgentManager.removeAgent
        ⟨[LCSAgentManager.agentA, LCSAgentManager.agentB], some LCSAgentManager.agentA⟩
        LCSAgentManager.agentA).1.defaultAgentId = some LCSAgentManager.agentB :=
  (claim_C7_default_promotion.1
      ⟨[LCSAgentManager.agentA, LCSAgentManager.agentB], some LCSAgentManager.agentA⟩
      LCSAgentManager.agentA rfl (by decide)).trans (by decide)

/-- C8 (confirmed): `fadeControl` issues exactly 21 dim commands, the
i-th (i = 0 .. 20) with brightness `Math.round(start + (end - start) * i
/ 20)` — the loop's `stepSize * i` equals that expression over `ℚ` — and
the 0 → 100 fade over 1 s sends exactly `[0, 5, 10, …, 100]`. -/
theorem claim_C8_fade_samples :
    (∀ s e : ℚ, (LCSController.fadeControl s e).length = 21 ∧
      ∀ i : ℕ, i < 21 →
        (LCSController.fadeControl s e).getD i 0 =
          LCSController.jsRound (s + (e - s) * i / 20)) ∧
    LCSController.fadeControl 0 100 =
      [0, 5, 10, 15, 20, 25, 30, 35, 40, 45, 50, 55, 60, 65, 70, 75, 80, 85, 90, 95, 100] := by
  constructor
  · intro s e
    constructor
    · simp [LCSController.fadeControl]
    · intro i hi
      simp only [LCSController.fadeControl]
      have hlen : i < ((List.range 21).map fun j : ℕ =>
          LCSController.jsRound (s + (e - s) / 20 * j)).length := by
        simpa using hi
      rw [List.getD_eq_getElem _ _ hlen, List.getElem_map, List.getElem_range]
      congr 1
      ring
  · simp only [LCSController.fadeControl]
    rw [show List.range (20 + 1) =
      [0, 1, 2, 3, 4, 5, 6, 7, 8, 9, 10, 11, 12, 13, 14, 15, 16, 17, 18, 19, 20] from by decide]
    simp only [List.map_cons, List.map_nil]
    norm_num [LCSController.jsRound]

/-- Witness for C8 at sample index 4 of the 0 → 100 fade. -/
theorem claim_C8_witness :
    (LCSController.fadeControl 0 100).getD 4 0 =
      LCSController.jsRound (0 + (100 - 0) * ((4 : ℕ) : ℚ) / 20) :=
  (claim_C8_fade_samples.1 0 100).2 4 (by norm_num)

/-- C9 counterexample: `waveEffect` over lamps `[1, 2]` sleeps after the
last command as well — its trace ends in a sleep, and it is not the
claimed trace with no trailing sleep. -/
theorem claim_C9_counterexample :
    LCSController.waveEffect [1, 2] 80 500 =
      [LCSController.WaveAction.send 1 80, LCSController.WaveAction.sleep 500,
       LCSController.WaveAction.send 2 80, LCSController.WaveAction.sleep 500] ∧
    LCSController.waveEffect [1, 2] 80 500 ≠
      [LCSController.WaveAction.send 1 80, LCSController.WaveAction.sleep 500,
       LCSController.WaveAction.send 2 80] := by decide

/-- C9 (corrected): `waveEffect` sends one dim command per element of
`lampList` in list order, but sleeps `interval` ms after *every* command:
the trace carries one sleep per lamp and, for a non-empty list, ends with
a trailing sleep after the last command. -/
theorem claim_C9_wave_trace (lampList : List ℕ) (brightness interval : ℕ) :
    LCSController.sentLamps (LCSController.waveEffect lampList brightness interval) =
      lampList ∧
    LCSController.sleepCount (LCSController.waveEffect lampList brightness interval) =
      lampList.length ∧
    (lampList ≠ [] →
      (LCSController.waveEffect lampList brightness interval).getLast? =
        some (LCSController.WaveAction.sleep interval)) := by
  induction lampList with
  | nil => exact ⟨rfl, rfl, fun h => absurd rfl h⟩
  | cons a rest ih =>
    obtain ⟨ih1, ih2, ih3⟩ := ih
    have hw : LCSController.waveEffect (a :: rest) brightness interval =
        LCSController.WaveAction.send a brightness ::
          LCSController.WaveAction.sleep interval ::
          LCSController.waveEffect rest brightness interval := rfl
    refine ⟨?_, ?_, ?_⟩
    · rw [hw]
      have hstep : LCSController.sentLamps (LCSController.WaveAction.send a brightness ::
          LCSController.WaveAction.sleep interval ::
          LCSController.waveEffect rest brightness interval) =
          a :: LCSController.sentLamps (LCSController.waveEffect rest brightness interval) :=
        rfl
      rw [hstep, ih1]
    · rw [hw]
      have hstep : LCSController.sleepCount (LCSController.WaveAction.send a brightness ::
          LCSController.WaveAction.sleep interval ::
          LCSController.waveEffect rest brightness interval) =
          LCSController.sleepCount (LCSController.waveEffect rest brightness interval) + 1 :=
        rfl
      rw [hstep, ih2, List.length_cons]
    · intro hne
      rw [hw]
      cases rest with
      | nil => rfl
      | cons c rest2 =>
        have hw2 : LCSController.waveEffect (c :: rest2) brightness interval =
            LCSController.WaveAction.send c brightness ::
              LCSController.WaveAction.sleep interval ::
              LCSController.waveEffect rest2 brightness interval := rfl
        rw [hw2, List.getLast?_cons_cons, List.getLast?_cons_cons, ← hw2]
        exact ih3 (by simp)

/-- Witness for C9: the single-lamp wave trace ends with its trailing
sleep. -/
theorem claim_C9_witness :
    LCSController.sentLamps (LCSController.waveEffect [7] 50 100) = [7] ∧
    (LCSController.waveEffect [7] 50 100).getLast? =
      some (LCSController.WaveAction.sleep 100) :=
  ⟨(claim_C9_wave_trace [7] 50 100).1,
   (claim_C9_wave_trace [7] 50 100).2.2 (by decide)⟩
